import Mathlib

/-!
Verification of the execution-and-caching core of the build orchestrator
(`src/bootstrap/src/utils/context.rs`).

The `ExecutionContext`, its four memoization tables, command execution with
failure policies, dry-run handling, the file/path caches, the freshness check
and the git diff-index convenience operation are translated from the source.
Collaborator types that live outside the provided source (`BootstrapCommand`,
`CommandOutput`, `OutputMode`, the interning table, the VCS freshness oracle)
are modelled from the specification, as noted on each definition.

Side effects are made explicit: every operation returns, next to its value and
the updated context, a list of `Effect`s recording console lines and each
invocation of an external interface (process execution, filesystem read/stat,
VCS oracle).  Process termination (`std::process::exit` inside `fatal_error`,
or a panic from `.expect`) is modelled by the `ExecOutcome.exited` result.
-/

/-- Modelled from the spec: per-stream output capture mode — capture as text,
stream through to the console, or discard (`OutputMode` in `exec.rs`, which is
not under the provided sources). -/
inductive OutputMode
  | Capture
  | Print
  | Discard
deriving DecidableEq

/-- Modelled from the spec: what a stream's recorded value can be — not
captured, or captured as text.  (The "captured but not valid text" case of the
spec cannot arise in this model because raw output is already text.) -/
inductive StreamCapture
  | notCaptured
  | text (s : String)
deriving DecidableEq

/-- Modelled from the spec: exit classification of a command — it never
started, or it finished with a success flag (non-zero exit and abnormal
termination are both non-success; the executor only distinguishes
success from failure). -/
inductive CommandStatus
  | didNotStart
  | finished (success : Bool)
deriving DecidableEq

/-- Modelled from the spec: the result of running (or simulating) a
descriptor (`CommandOutput`, not under the provided sources): whether the
process was launched, its exit classification, and the per-stream captured
output. -/
structure CommandOutput where
  started : Bool
  status : CommandStatus
  stdout : StreamCapture
  stderr : StreamCapture
deriving DecidableEq

/-- Modelled from the spec: capture a stream's bytes only when the requested
mode is `Capture`; `Print` (stream through) and `Discard` record nothing. -/
def captureStream (mode : OutputMode) (data : String) : StreamCapture :=
  match mode with
  | .Capture => .text data
  | .Print => .notCaptured
  | .Discard => .notCaptured

/-- Modelled from the spec: the default outcome used for dry-run simulation —
"did not run, trivially successful". -/
def CommandOutput.default : CommandOutput :=
  { started := false, status := .finished true,
    stdout := .notCaptured, stderr := .notCaptured }

/-- Modelled from the spec: the outcome recorded when the process could not be
launched at all; nothing was captured. -/
def CommandOutput.did_not_start (_stdout_mode _stderr_mode : OutputMode) : CommandOutput :=
  { started := false, status := .didNotStart,
    stdout := .notCaptured, stderr := .notCaptured }

/-- Modelled from the spec: build a `CommandOutput` from a finished process,
capturing each stream according to its requested mode. -/
def CommandOutput.from_output (exitSuccess : Bool) (out err : String)
    (stdout_mode stderr_mode : OutputMode) : CommandOutput :=
  { started := true, status := .finished exitSuccess,
    stdout := captureStream stdout_mode out,
    stderr := captureStream stderr_mode err }

/-- Modelled from the spec: an outcome is a success exactly when it finished
with a success status. -/
def CommandOutput.is_success (o : CommandOutput) : Bool :=
  match o.status with
  | .finished true => true
  | _ => false

/-- Modelled from the spec: failure is the negation of success (covers both
non-success exits and "did not start"). -/
def CommandOutput.is_failure (o : CommandOutput) : Bool :=
  !o.is_success

/-- Modelled from the spec: the captured standard-error text, when present. -/
def CommandOutput.stderr_if_present (o : CommandOutput) : Option String :=
  match o.stderr with
  | .text s => some s
  | .notCaptured => none

/-- Failure-handling policy attached to a command descriptor
(`BehaviorOnFailure` in `exec.rs`). -/
inductive BehaviorOnFailure
  | Exit
  | DelayFail
  | Ignore
deriving DecidableEq

/-- Modelled from the spec: the command descriptor (`BootstrapCommand`, not
under the provided sources) — program, ordered arguments, optional working
directory, failure policy, the run-even-in-dry-run flag, and the
"already executed" marker. -/
structure BootstrapCommand where
  program : String
  arguments : List String
  working_directory : Option String
  failure_behavior : BehaviorOnFailure
  run_always : Bool
  executed : Bool
deriving DecidableEq

/-- Modelled from the spec: a fresh descriptor for a program, with no
arguments, inheriting the working directory, default (Exit) failure policy,
not forced to run in dry-run mode, not yet executed. -/
def BootstrapCommand.new (program : String) : BootstrapCommand :=
  { program := program, arguments := [], working_directory := none,
    failure_behavior := .Exit, run_always := false, executed := false }

/-- Modelled from the spec: set the working directory of a descriptor. -/
def BootstrapCommand.current_dir (c : BootstrapCommand) (dir : String) : BootstrapCommand :=
  { c with working_directory := some dir }

/-- Modelled from the spec: append arguments to a descriptor. -/
def BootstrapCommand.args (c : BootstrapCommand) (xs : List String) : BootstrapCommand :=
  { c with arguments := c.arguments ++ xs }

/-- Modelled from the spec: switch the failure policy to `Ignore`
(`allow_failure`). -/
def BootstrapCommand.allow_failure (c : BootstrapCommand) : BootstrapCommand :=
  { c with failure_behavior := .Ignore }

/-- Modelled from the spec: mark the descriptor to execute even in dry-run
mode (the `run_always()` builder). -/
def BootstrapCommand.mark_run_always (c : BootstrapCommand) : BootstrapCommand :=
  { c with run_always := true }

/-- Modelled from the spec: stamp the descriptor as executed. -/
def BootstrapCommand.mark_as_executed (c : BootstrapCommand) : BootstrapCommand :=
  { c with executed := true }

/-- The command-outcome cache key computed by `runCmd`:
(program, arguments, working directory). -/
structure CommandKey where
  program : String
  args : List String
  cwd : Option String
deriving DecidableEq

/-- The key `runCmd` computes from a descriptor. -/
def BootstrapCommand.key (c : BootstrapCommand) : CommandKey :=
  { program := c.program, args := c.arguments, cwd := c.working_directory }

/-- Modelled from the spec: what the host's process-execution interface does
for one invocation — either a spawn error with a message, or a finished run
with a success flag and the raw standard output/error text. -/
inductive SpawnResult
  | spawnError (msg : String)
  | ran (exitSuccess : Bool) (out err : String)

/-- Modelled from the spec: the process-execution interface, abstracted as a
function from the command key to what happens when that command is spawned. -/
def Env : Type := CommandKey → SpawnResult

/-- Observable side effects of the core's operations: console lines and each
invocation of an external interface. -/
inductive Effect
  | println (msg : String)
  | eprintln (msg : String)
  | execInvoked (key : CommandKey)
  | fsRead (path : String)
  | fsStat (path : String)
  | vcsCheck (src_dir : String) (joined : String)
deriving DecidableEq

/-- A computation either returns control to the caller with a value, or the
whole process terminates first (`std::process::exit` or a panic). -/
inductive ExecOutcome (α : Type)
  | normal (val : α)
  | exited
deriving DecidableEq

/-- Modelled from the spec: a stable handle returned by the interning table —
two strings receive the same handle exactly when they are equal. -/
structure Interned where
  value : String
deriving DecidableEq

/-- Modelled from the spec: `INTERNER.intern_str`, deduplicating strings into
stable handles. -/
def intern_str (s : String) : Interned :=
  { value := s }

/-- Modelled from the spec: the freshness verdict returned by the
version-control oracle. -/
inductive PathFreshness
  | unchanged
  | changed
  | indeterminate
deriving DecidableEq

/-- Modelled from the spec: the Version-Control Freshness Oracle
(`build_helper::git::check_path_modifications`), abstracted over the fixed
git configuration and CI indicator: source root and path patterns in, verdict
or error out. -/
def VcsOracle : Type := String → List String → Except String PathFreshness

/-- First-match lookup in an association list (models `HashMap::get`; keys are
checked for absence before insertion, so first match is the only match). -/
def alistFind {κ ν : Type} [DecidableEq κ] (k : κ) : List (κ × ν) → Option ν
  | [] => none
  | (k0, v) :: rest => if k0 = k then some v else alistFind k rest

/-- The execution context: the three global flags and the four independent
memoization tables (`ExecutionContext` in `context.rs`; the locked hash maps
are modelled as association lists). -/
structure ExecutionContext where
  dry_run : Bool
  verbose : Nat
  fail_fast : Bool
  command_output_cache : List (CommandKey × Except String CommandOutput)
  file_contents_cache : List (String × Except String String)
  path_exist_cache : List (String × Bool)
  path_modifications_cache : List ((String × Interned) × PathFreshness)

/-- `ExecutionContext::new`: given flags, all four caches start empty. -/
def ExecutionContext.new (dry_run : Bool) (verbose : Nat) (fail_fast : Bool) :
    ExecutionContext :=
  { dry_run := dry_run, verbose := verbose, fail_fast := fail_fast,
    command_output_cache := [], file_contents_cache := [],
    path_exist_cache := [], path_modifications_cache := [] }

/-- `verbose_print`: emit a console line only when the verbosity level is
positive. -/
def ExecutionContext.verbose_print (ctx : ExecutionContext) (msg : String) : List Effect :=
  if ctx.verbose > 0 then [.println msg] else []

/-- `fatal_error`: print a `fatal error:` line and terminate the process
(the `Bool` is the termination flag). -/
def ExecutionContext.fatal_error (_ctx : ExecutionContext) (msg : String) :
    List Effect × Bool :=
  ([.eprintln ("fatal error: " ++ msg)], true)

/-- The error message built on a spawn failure in
`execute_bootstrap_command_internal`. -/
def spawn_error_msg (cmd : BootstrapCommand) (e : String) : String :=
  "failed to execute " ++ cmd.program ++ ": " ++ e

/-- The error message built on a non-success exit in
`execute_bootstrap_command_internal`. -/
def cmd_failed_msg (cmd : BootstrapCommand) : String :=
  "command failed: " ++ cmd.program

/-- `handle_failure`: print the error (with captured stderr when present),
then act on the descriptor's failure policy — `Exit` terminates the process
under fail-fast and otherwise prints a delayed-failure notice, `DelayFail`
prints the notice, `Ignore` does nothing further.  Returns the emitted
effects and whether the process terminated. -/
def ExecutionContext.handle_failure (ctx : ExecutionContext) (cmd : BootstrapCommand)
    (output : CommandOutput) (error_msg : String) : List Effect × Bool :=
  let header :=
    match output.stderr_if_present with
    | some stderr => [Effect.eprintln (error_msg ++ "\nStderr:\n" ++ stderr)]
    | none => [Effect.eprintln error_msg]
  match cmd.failure_behavior with
  | .Exit =>
    if ctx.fail_fast then
      let f := ctx.fatal_error ("Exiting due to command failure: " ++ cmd.program)
      (header ++ f.1, f.2)
    else
      (header ++ [Effect.eprintln "(Failure Delayed)"], false)
  | .DelayFail =>
    (header ++ [Effect.eprintln "(Failure delayed)"], false)
  | .Ignore =>
    (header, false)

/-- `execute_bootstrap_command_internal`: dry-run suppression (unless
`run_always`), then one invocation of the process-execution interface; a
spawn error goes through failure handling and yields an error, a finished run
is classified and, when failed under a non-`Ignore` policy, goes through
failure handling and yields an error.  Returns the outcome, the descriptor
(stamped executed on every path that ran or simulated the command), and the
effects. -/
def execute_bootstrap_command_internal (env : Env) (ctx : ExecutionContext)
    (cmd : BootstrapCommand) (stdout_mode stderr_mode : OutputMode) :
    ExecOutcome (Except String CommandOutput) × BootstrapCommand × List Effect :=
  if ctx.dry_run && !cmd.run_always then
    (.normal (.ok CommandOutput.default), cmd.mark_as_executed,
      ctx.verbose_print ("(dry run) " ++ cmd.program))
  else
    let eff0 := ctx.verbose_print ("running: " ++ cmd.program)
    match env cmd.key with
    | .spawnError e =>
      let error_msg := spawn_error_msg cmd e
      let output := CommandOutput.did_not_start stdout_mode stderr_mode
      let hf := ctx.handle_failure cmd output error_msg
      ((if hf.2 then .exited else .normal (.error error_msg)), cmd,
        eff0 ++ [.execInvoked cmd.key] ++ ctx.verbose_print error_msg ++ hf.1)
    | .ran exitSuccess out err =>
      let eff1 := ctx.verbose_print ("finished running " ++ cmd.program)
      let output := CommandOutput.from_output exitSuccess out err stdout_mode stderr_mode
      let cmd1 := cmd.mark_as_executed
      if output.is_failure = true ∧ cmd1.failure_behavior ≠ BehaviorOnFailure.Ignore then
        let error_msg := cmd_failed_msg cmd1
        let hf := ctx.handle_failure cmd1 output error_msg
        ((if hf.2 then .exited else .normal (.error error_msg)), cmd1,
          eff0 ++ [.execInvoked cmd.key] ++ eff1 ++ hf.1)
      else
        (.normal (.ok output), cmd1, eff0 ++ [.execInvoked cmd.key] ++ eff1)

/-- `runCmd`: compute the (program, arguments, working-directory) key; on a
cache hit return a clone of the stored result with no side effects beyond a
verbose line; on a miss delegate to the internal executor, store the result
under the key, and return it.  If the executor terminated the process, no
insertion happens. -/
def runCmd (env : Env) (ctx : ExecutionContext) (cmd : BootstrapCommand)
    (stdout_mode stderr_mode : OutputMode) :
    ExecOutcome (Except String CommandOutput) × ExecutionContext × List Effect :=
  match alistFind cmd.key ctx.command_output_cache with
  | some cached_result =>
    (.normal cached_result, ctx,
      ctx.verbose_print ("(cache) Running BootstrapCommand: " ++ cmd.program))
  | none =>
    match execute_bootstrap_command_internal env ctx cmd stdout_mode stderr_mode with
    | (.exited, _, eff) => (.exited, ctx, eff)
    | (.normal r, _, eff) =>
      (.normal r,
        { ctx with command_output_cache := (cmd.key, r) :: ctx.command_output_cache },
        eff)

/-- `read_file`: memoized whole-file read.  A cached successful read is
returned without touching the filesystem; a failing read panics (via
`.expect`) before anything is inserted into the cache; a successful read is
inserted and returned.  (A cached failure would also panic at the lookup, but
no failure is ever inserted.) -/
def read_file (fs : String → Except String String) (ctx : ExecutionContext)
    (path : String) : ExecOutcome String × ExecutionContext × List Effect :=
  match alistFind path ctx.file_contents_cache with
  | some cached_result =>
    match cached_result with
    | .ok s => (.normal s, ctx, ctx.verbose_print ("(cached) Reading file: " ++ path))
    | .error _ => (.exited, ctx, ctx.verbose_print ("(cached) Reading file: " ++ path))
  | none =>
    let eff0 := ctx.verbose_print ("Reading file: " ++ path)
    match fs path with
    | .error _ => (.exited, ctx, eff0 ++ [.fsRead path])
    | .ok v =>
      (.normal v,
        { ctx with file_contents_cache := (path, .ok v) :: ctx.file_contents_cache },
        eff0 ++ [.fsRead path])

/-- `path_exists`: memoized existence check — one filesystem stat per distinct
path per context lifetime. -/
def path_exists (fsStat : String → Bool) (ctx : ExecutionContext) (path : String) :
    Bool × ExecutionContext × List Effect :=
  match alistFind path ctx.path_exist_cache with
  | some b => (b, ctx, ctx.verbose_print ("(cached) Checking path existence: " ++ path))
  | none =>
    let result := fsStat path
    (result,
      { ctx with path_exist_cache := (path, result) :: ctx.path_exist_cache },
      ctx.verbose_print ("Checking path existence: " ++ path) ++ [.fsStat path])

/-- The freshness-check cache key computed by `check_path_modifications`:
(source root, interned handle of the comma-joined pattern list). -/
def check_key (src_dir : String) (paths : List String) : String × Interned :=
  (src_dir, intern_str (String.intercalate "," paths))

/-- `check_path_modifications`: memoized freshness check keyed by
`check_key`; on a miss the VCS oracle is consulted, an oracle failure panics
(via `.expect`), and a verdict is cached and returned. -/
def check_path_modifications (oracle : VcsOracle) (ctx : ExecutionContext)
    (src_dir : String) (paths : List String) :
    ExecOutcome PathFreshness × ExecutionContext × List Effect :=
  let cache_key := check_key src_dir paths
  match alistFind cache_key ctx.path_modifications_cache with
  | some cached_result =>
    (.normal cached_result, ctx,
      ctx.verbose_print "(cached) check_path_modifications")
  | none =>
    let eff0 := ctx.verbose_print "Running check_path_modification"
    match oracle src_dir paths with
    | .error _ =>
      (.exited, ctx, eff0 ++ [.vcsCheck src_dir (String.intercalate "," paths)])
    | .ok r =>
      (.normal r,
        { ctx with path_modifications_cache :=
            (cache_key, r) :: ctx.path_modifications_cache },
        eff0 ++ [.vcsCheck src_dir (String.intercalate "," paths)])

/-- The descriptor `git_command_status_for_diff_index` builds:
`git diff-index --quiet <base> -- <paths...>`, with failure allowed and
`run_always` set. -/
def diff_index_cmd (cwd : Option String) (base : String) (paths : List String) :
    BootstrapCommand :=
  let cmd0 := BootstrapCommand.new "git"
  let cmd1 := match cwd with
    | some dir => cmd0.current_dir dir
    | none => cmd0
  (((cmd1.args (["diff-index", "--quiet", base, "--"])).args paths).allow_failure).mark_run_always

/-- The command key of the diff-index descriptor. -/
def diff_index_key (cwd : Option String) (base : String) (paths : List String) :
    CommandKey :=
  { program := "git", args := ["diff-index", "--quiet", base, "--"] ++ paths, cwd := cwd }

/-- `git_command_status_for_diff_index`: run the diff-index descriptor with
both streams printed, propagate a run error, and otherwise return whether the
exit was non-successful (true = there are differences). -/
def git_command_status_for_diff_index (env : Env) (ctx : ExecutionContext)
    (cwd : Option String) (base : String) (paths : List String) :
    ExecOutcome (Except String Bool) × ExecutionContext × List Effect :=
  match runCmd env ctx (diff_index_cmd cwd base paths) .Print .Print with
  | (.exited, ctx1, eff) => (.exited, ctx1, eff)
  | (.normal (.error e), ctx1, eff) => (.normal (.error e), ctx1, eff)
  | (.normal (.ok output), ctx1, eff) =>
    (.normal (.ok (!output.is_success)), ctx1, eff)

/-- Is an effect an invocation of the process-execution interface? -/
def isExecEffect : Effect → Bool
  | .execInvoked _ => true
  | _ => false

/-- Number of process-execution invocations recorded in an effect list. -/
def countExec (effs : List Effect) : Nat :=
  effs.countP isExecEffect

/-! Test fixtures used by the witness theorems. -/

/-- An environment where every command finishes successfully printing
"hello". -/
def wEnv : Env := fun _ => .ran true "hello\n" ""

/-- A context with dry-run off, verbosity 0 and fail-fast on. -/
def wCtx : ExecutionContext := ExecutionContext.new false 0 true

/-- A sample descriptor. -/
def wCmd : BootstrapCommand :=
  { program := "echo", arguments := ["hello"], working_directory := none,
    failure_behavior := .Exit, run_always := false, executed := false }

/-- The outcome of running `wCmd` under `wEnv` with both streams captured. -/
def wR : Except String CommandOutput :=
  .ok { started := true, status := .finished true,
        stdout := .text "hello\n", stderr := .text "" }

/-- `wCtx` after `wCmd`'s outcome has been cached. -/
def wCtx1 : ExecutionContext :=
  { wCtx with command_output_cache := [(wCmd.key, wR)] }

/-- The effects of the first (miss) call for `wCmd`. -/
def wEff : List Effect := [.execInvoked wCmd.key]

/-- An environment where every command exits with a failure status. -/
def failEnv : Env := fun _ => .ran false "" "boom"

/-- An environment where every spawn fails. -/
def spawnFailEnv : Env := fun _ => .spawnError "No such file or directory"

/-- A context with all flags off. -/
def plainCtx : ExecutionContext := ExecutionContext.new false 0 false

/-- A dry-run context. -/
def dryCtx : ExecutionContext := ExecutionContext.new true 0 false

/-- `wCmd` with the `Ignore` failure policy. -/
def wCmdIgnore : BootstrapCommand := { wCmd with failure_behavior := .Ignore }

/-- `wCmd` with the `DelayFail` failure policy. -/
def wCmdDelay : BootstrapCommand := { wCmd with failure_behavior := .DelayFail }

/-- A filesystem where "bad" is unreadable and every other path reads as
"data". -/
def wFs : String → Except String String :=
  fun p => if p = "bad" then .error "stream did not contain valid UTF-8" else .ok "data"

/-- `plainCtx` after a successful read of "good". -/
def wCtxRead : ExecutionContext :=
  { plainCtx with file_contents_cache := [("good", .ok "data")] }

/-- An oracle that always answers `unchanged`. -/
def wOracle : VcsOracle := fun _ _ => .ok .unchanged

/-- `plainCtx` after a freshness check for root "root" and patterns
["a", "b"]. -/
def wCtxFresh : ExecutionContext :=
  { plainCtx with path_modifications_cache :=
      [(check_key "root" ["a", "b"], .unchanged)] }

/-- A dry-run, fail-fast context whose command cache already holds `wCmd`'s
outcome. -/
def wCtxHit : ExecutionContext :=
  { ExecutionContext.new true 0 true with command_output_cache := [(wCmd.key, wR)] }

/-! Helper lemmas. -/

@[simp] theorem mark_as_executed_failure_behavior (c : BootstrapCommand) :
    c.mark_as_executed.failure_behavior = c.failure_behavior := rfl

@[simp] theorem mark_as_executed_key (c : BootstrapCommand) :
    c.mark_as_executed.key = c.key := rfl

@[simp] theorem mark_as_executed_program (c : BootstrapCommand) :
    c.mark_as_executed.program = c.program := rfl

@[simp] theorem mark_as_executed_executed (c : BootstrapCommand) :
    c.mark_as_executed.executed = true := rfl

@[simp] theorem is_success_from_output (exitSuccess : Bool) (out err : String)
    (m1 m2 : OutputMode) :
    (CommandOutput.from_output exitSuccess out err m1 m2).is_success = exitSuccess := by
  cases exitSuccess <;> rfl

@[simp] theorem is_failure_from_output (exitSuccess : Bool) (out err : String)
    (m1 m2 : OutputMode) :
    (CommandOutput.from_output exitSuccess out err m1 m2).is_failure = !exitSuccess := by
  cases exitSuccess <;> rfl

@[simp] theorem is_success_default : CommandOutput.default.is_success = true := rfl

@[simp] theorem did_not_start_stderr_if_present (m1 m2 : OutputMode) :
    (CommandOutput.did_not_start m1 m2).stderr_if_present = none := rfl

theorem countExec_verbose_print (ctx : ExecutionContext) (msg : String) :
    countExec (ctx.verbose_print msg) = 0 := by
  unfold ExecutionContext.verbose_print countExec
  split <;> simp [isExecEffect]

theorem execInvoked_not_mem_verbose_print (ctx : ExecutionContext) (msg : String)
    (k : CommandKey) : Effect.execInvoked k ∉ ctx.verbose_print msg := by
  unfold ExecutionContext.verbose_print
  split <;> simp

theorem handle_failure_snd_eq (ctx : ExecutionContext) (cmd : BootstrapCommand)
    (o : CommandOutput) (msg : String) :
    (ctx.handle_failure cmd o msg).2 =
      if cmd.failure_behavior = BehaviorOnFailure.Exit then ctx.fail_fast else false := by
  unfold ExecutionContext.handle_failure ExecutionContext.fatal_error
  cases o.stderr_if_present <;> cases hb : cmd.failure_behavior <;>
    simp [hb] <;> cases hff : ctx.fail_fast <;> simp [hff]

theorem countExec_handle_failure (ctx : ExecutionContext) (cmd : BootstrapCommand)
    (o : CommandOutput) (msg : String) :
    countExec (ctx.handle_failure cmd o msg).1 = 0 := by
  unfold ExecutionContext.handle_failure ExecutionContext.fatal_error countExec
  cases o.stderr_if_present <;> cases hb : cmd.failure_behavior <;>
    simp [hb, isExecEffect] <;> cases hff : ctx.fail_fast <;>
    simp [hff, isExecEffect]

theorem eprintln_mem_handle_failure (ctx : ExecutionContext) (cmd : BootstrapCommand)
    (o : CommandOutput) (msg : String) (h : o.stderr_if_present = none) :
    Effect.eprintln msg ∈ (ctx.handle_failure cmd o msg).1 := by
  unfold ExecutionContext.handle_failure ExecutionContext.fatal_error
  rw [h]
  cases hb : cmd.failure_behavior <;> cases hff : ctx.fail_fast <;> simp [hb, hff]

theorem countP_exec_verbose_print (ctx : ExecutionContext) (msg : String) :
    List.countP isExecEffect (ctx.verbose_print msg) = 0 :=
  countExec_verbose_print ctx msg

theorem countP_exec_handle_failure (ctx : ExecutionContext) (cmd : BootstrapCommand)
    (o : CommandOutput) (msg : String) :
    List.countP isExecEffect (ctx.handle_failure cmd o msg).1 = 0 :=
  countExec_handle_failure ctx cmd o msg

theorem runCmd_hit_eq (env : Env) (ctx : ExecutionContext) (cmd : BootstrapCommand)
    (m1 m2 : OutputMode) (v : Except String CommandOutput)
    (h : alistFind cmd.key ctx.command_output_cache = some v) :
    runCmd env ctx cmd m1 m2 =
      (.normal v, ctx,
        ctx.verbose_print ("(cache) Running BootstrapCommand: " ++ cmd.program)) := by
  unfold runCmd
  rw [h]

theorem runCmd_miss_eq (env : Env) (ctx : ExecutionContext) (cmd : BootstrapCommand)
    (m1 m2 : OutputMode)
    (h : alistFind cmd.key ctx.command_output_cache = none) :
    runCmd env ctx cmd m1 m2 =
      (match execute_bootstrap_command_internal env ctx cmd m1 m2 with
        | (.exited, _, eff) => (.exited, ctx, eff)
        | (.normal r, _, eff) =>
          (.normal r,
            { ctx with command_output_cache := (cmd.key, r) :: ctx.command_output_cache },
            eff)) := by
  unfold runCmd
  rw [h]

theorem runCmd_miss_fst (env : Env) (ctx : ExecutionContext) (cmd : BootstrapCommand)
    (m1 m2 : OutputMode)
    (h : alistFind cmd.key ctx.command_output_cache = none) :
    (runCmd env ctx cmd m1 m2).1 =
      (execute_bootstrap_command_internal env ctx cmd m1 m2).1 := by
  rw [runCmd_miss_eq env ctx cmd m1 m2 h]
  rcases hint : execute_bootstrap_command_internal env ctx cmd m1 m2 with ⟨res, c, e⟩
  cases res <;> rfl

theorem countExec_internal_le_one (env : Env) (ctx : ExecutionContext)
    (cmd : BootstrapCommand) (m1 m2 : OutputMode) :
    countExec (execute_bootstrap_command_internal env ctx cmd m1 m2).2.2 ≤ 1 := by
  unfold execute_bootstrap_command_internal
  split
  · simp [countExec_verbose_print]
  · split
    · simp [countExec, List.countP_append, countP_exec_verbose_print,
        countP_exec_handle_failure, List.countP_cons, List.countP_nil, isExecEffect]
    · dsimp only
      split <;>
        simp [countExec, List.countP_append, countP_exec_verbose_print,
          countP_exec_handle_failure, List.countP_cons, List.countP_nil, isExecEffect]

theorem countExec_runCmd_le_one (env : Env) (ctx : ExecutionContext)
    (cmd : BootstrapCommand) (m1 m2 : OutputMode) :
    countExec (runCmd env ctx cmd m1 m2).2.2 ≤ 1 := by
  cases hfind : alistFind cmd.key ctx.command_output_cache with
  | some v =>
    rw [runCmd_hit_eq env ctx cmd m1 m2 v hfind]
    simp [countExec_verbose_print]
  | none =>
    rw [runCmd_miss_eq env ctx cmd m1 m2 hfind]
    have hle := countExec_internal_le_one env ctx cmd m1 m2
    rcases hint : execute_bootstrap_command_internal env ctx cmd m1 m2 with ⟨res, c, e⟩
    rw [hint] at hle
    cases res <;> simpa using hle

theorem alistFind_after_runCmd (env : Env) (ctx : ExecutionContext)
    (cmd : BootstrapCommand) (m1 m2 : OutputMode) (r : Except String CommandOutput)
    (ctx1 : ExecutionContext) (eff : List Effect)
    (h : runCmd env ctx cmd m1 m2 = (.normal r, ctx1, eff)) :
    alistFind cmd.key ctx1.command_output_cache = some r := by
  cases hfind : alistFind cmd.key ctx.command_output_cache with
  | some v =>
    rw [runCmd_hit_eq env ctx cmd m1 m2 v hfind] at h
    simp only [Prod.mk.injEq, ExecOutcome.normal.injEq] at h
    obtain ⟨h1, h2, -⟩ := h
    subst h1
    subst h2
    exact hfind
  | none =>
    rw [runCmd_miss_eq env ctx cmd m1 m2 hfind] at h
    rcases hint : execute_bootstrap_command_internal env ctx cmd m1 m2 with ⟨res, c, e⟩
    rw [hint] at h
    cases res with
    | exited => simp at h
    | normal rr =>
      simp only [Prod.mk.injEq, ExecOutcome.normal.injEq] at h
      obtain ⟨h1, h2, -⟩ := h
      subst h1
      subst h2
      simp [alistFind]

theorem read_file_ctx_cases (fs : String → Except String String)
    (ctx : ExecutionContext) (p : String) :
    (read_file fs ctx p).2.1 = ctx ∨
    ∃ v, (read_file fs ctx p).2.1 =
      { ctx with file_contents_cache := (p, .ok v) :: ctx.file_contents_cache } := by
  unfold read_file
  cases h : alistFind p ctx.file_contents_cache with
  | some c =>
    cases c with
    | ok s => left; rfl
    | error e => left; rfl
  | none =>
    cases hf : fs p with
    | error e => left; rfl
    | ok v => right; exact ⟨v, rfl⟩

theorem path_exists_ctx_cases (fsStat : String → Bool)
    (ctx : ExecutionContext) (q : String) :
    (path_exists fsStat ctx q).2.1 = ctx ∨
    ∃ b, (path_exists fsStat ctx q).2.1 =
      { ctx with path_exist_cache := (q, b) :: ctx.path_exist_cache } := by
  unfold path_exists
  cases h : alistFind q ctx.path_exist_cache with
  | some b => left; rfl
  | none => right; exact ⟨fsStat q, rfl⟩

/-- Claim C1: for two calls to `runCmd` whose descriptors produce the same
(program, arguments, working-directory) key, the process-execution interface
is invoked at most once — the first call records at most one invocation and
the second call records none — and the second call returns exactly the stored
result, which equals the first call's result. -/
theorem runCmd_memoization (env : Env) (ctx ctx1 : ExecutionContext)
    (cmd1 cmd2 : BootstrapCommand) (ma mb mc md : OutputMode)
    (r : Except String CommandOutput) (eff1 : List Effect)
    (hkey : cmd2.key = cmd1.key)
    (h1 : runCmd env ctx cmd1 ma mb = (.normal r, ctx1, eff1)) :
    runCmd env ctx1 cmd2 mc md =
      (.normal r, ctx1,
        ctx1.verbose_print ("(cache) Running BootstrapCommand: " ++ cmd2.program)) ∧
    countExec eff1 ≤ 1 ∧
    countExec (ctx1.verbose_print ("(cache) Running BootstrapCommand: " ++ cmd2.program)) = 0 := by
  have hfind := alistFind_after_runCmd env ctx cmd1 ma mb r ctx1 eff1 h1
  refine ⟨?_, ?_, countExec_verbose_print _ _⟩
  · exact runCmd_hit_eq env ctx1 cmd2 mc md r (by rw [hkey]; exact hfind)
  · have hle := countExec_runCmd_le_one env ctx cmd1 ma mb
    rw [h1] at hle
    exact hle

/-- Witness for C1: a concrete first run caches the outcome, and the repeat
call returns it with zero process invocations. -/
theorem runCmd_memoization_witness :
    runCmd wEnv wCtx1 wCmd .Print .Print =
      (.normal wR, wCtx1,
        wCtx1.verbose_print ("(cache) Running BootstrapCommand: " ++ wCmd.program)) ∧
    countExec wEff ≤ 1 := by
  have h := runCmd_memoization wEnv wCtx wCtx1 wCmd wCmd .Capture .Capture .Print .Print
    wR wEff rfl (by rfl)
  exact ⟨h.1, h.2.1⟩

/-- Claim C3: with the context in dry-run mode and `run_always = false`, a
cache miss never invokes the process-execution interface: `runCmd` stores and
returns the default trivially-successful outcome and the descriptor is
stamped executed by the internal executor. -/
theorem runCmd_dry_run_suppression (env : Env) (ctx : ExecutionContext)
    (cmd : BootstrapCommand) (m1 m2 : OutputMode)
    (hdry : ctx.dry_run = true) (hra : cmd.run_always = false)
    (hmiss : alistFind cmd.key ctx.command_output_cache = none) :
    runCmd env ctx cmd m1 m2 =
      (.normal (.ok CommandOutput.default),
        { ctx with command_output_cache :=
            (cmd.key, .ok CommandOutput.default) :: ctx.command_output_cache },
        ctx.verbose_print ("(dry run) " ++ cmd.program)) ∧
    countExec (ctx.verbose_print ("(dry run) " ++ cmd.program)) = 0 ∧
    CommandOutput.default.is_success = true ∧
    (execute_bootstrap_command_internal env ctx cmd m1 m2).2.1.executed = true := by
  have hint : execute_bootstrap_command_internal env ctx cmd m1 m2 =
      (.normal (.ok CommandOutput.default), cmd.mark_as_executed,
        ctx.verbose_print ("(dry run) " ++ cmd.program)) := by
    unfold execute_bootstrap_command_internal
    rw [hdry, hra]
    rfl
  refine ⟨?_, countExec_verbose_print _ _, rfl, by rw [hint]; rfl⟩
  rw [runCmd_miss_eq env ctx cmd m1 m2 hmiss, hint]

/-- Witness for C3: a concrete dry-run call returns the stored default
outcome without any process invocation. -/
theorem runCmd_dry_run_suppression_witness :
    runCmd wEnv dryCtx wCmd .Capture .Capture =
      (.normal (.ok CommandOutput.default),
        { dryCtx with command_output_cache :=
            (wCmd.key, .ok CommandOutput.default) :: dryCtx.command_output_cache },
        dryCtx.verbose_print ("(dry run) " ++ wCmd.program)) ∧
    countExec (dryCtx.verbose_print ("(dry run) " ++ wCmd.program)) = 0 :=
  ⟨(runCmd_dry_run_suppression wEnv dryCtx wCmd .Capture .Capture rfl rfl rfl).1,
   (runCmd_dry_run_suppression wEnv dryCtx wCmd .Capture .Capture rfl rfl rfl).2.1⟩

/-- Claim C9: `read_file` mutates only the file-contents table and
`path_exists` mutates only the path-existence table; each leaves every other
cache of the context unchanged, for every path. -/
theorem cache_independence (fs : String → Except String String)
    (fsStat : String → Bool) (ctx : ExecutionContext) (p q : String) :
    (read_file fs ctx p).2.1.path_exist_cache = ctx.path_exist_cache ∧
    (read_file fs ctx p).2.1.command_output_cache = ctx.command_output_cache ∧
    (read_file fs ctx p).2.1.path_modifications_cache = ctx.path_modifications_cache ∧
    (path_exists fsStat ctx q).2.1.file_contents_cache = ctx.file_contents_cache ∧
    (path_exists fsStat ctx q).2.1.command_output_cache = ctx.command_output_cache ∧
    (path_exists fsStat ctx q).2.1.path_modifications_cache = ctx.path_modifications_cache := by
  obtain hr | ⟨v, hr⟩ := read_file_ctx_cases fs ctx p <;>
    obtain hp | ⟨b, hp⟩ := path_exists_ctx_cases fsStat ctx q <;>
      rw [hr, hp] <;> exact ⟨rfl, rfl, rfl, rfl, rfl, rfl⟩

theorem internal_ran_failure_fst (env : Env) (ctx : ExecutionContext)
    (cmd : BootstrapCommand) (m1 m2 : OutputMode) (out err : String)
    (hdry : (ctx.dry_run && !cmd.run_always) = false)
    (henv : env cmd.key = .ran false out err) :
    (execute_bootstrap_command_internal env ctx cmd m1 m2).1 =
      (if cmd.failure_behavior = BehaviorOnFailure.Ignore then
        .normal (.ok (CommandOutput.from_output false out err m1 m2))
      else if cmd.failure_behavior = BehaviorOnFailure.Exit ∧ ctx.fail_fast = true then
        .exited
      else .normal (.error (cmd_failed_msg cmd.mark_as_executed))) := by
  by_cases hig : cmd.failure_behavior = BehaviorOnFailure.Ignore
  · simp [execute_bootstrap_command_internal, hdry, henv, hig]
  · by_cases hex : cmd.failure_behavior = BehaviorOnFailure.Exit
    · cases hff : ctx.fail_fast with
      | false =>
        simp [execute_bootstrap_command_internal, hdry, henv, hig, hex,
          handle_failure_snd_eq, hff]
      | true =>
        simp [execute_bootstrap_command_internal, hdry, henv, hig, hex,
          handle_failure_snd_eq, hff]
    · simp [execute_bootstrap_command_internal, hdry, henv, hig, hex,
        handle_failure_snd_eq]

/-- Claim C2: for a command that starts but exits with a failure status —
with policy Ignore, `runCmd` returns a success value; with DelayFail it
returns an error without terminating the process; with Exit and fail-fast
off it returns an error without terminating; with Exit and fail-fast on the
whole process terminates before control returns. -/
theorem runCmd_failure_policy_matrix (env : Env) (ctx : ExecutionContext)
    (cmd : BootstrapCommand) (m1 m2 : OutputMode) (out err : String)
    (hmiss : alistFind cmd.key ctx.command_output_cache = none)
    (hdry : (ctx.dry_run && !cmd.run_always) = false)
    (henv : env cmd.key = .ran false out err) :
    (cmd.failure_behavior = BehaviorOnFailure.Ignore →
      (runCmd env ctx cmd m1 m2).1 =
        .normal (.ok (CommandOutput.from_output false out err m1 m2))) ∧
    (cmd.failure_behavior = BehaviorOnFailure.DelayFail →
      (runCmd env ctx cmd m1 m2).1 =
        .normal (.error (cmd_failed_msg cmd.mark_as_executed))) ∧
    (cmd.failure_behavior = BehaviorOnFailure.Exit → ctx.fail_fast = false →
      (runCmd env ctx cmd m1 m2).1 =
        .normal (.error (cmd_failed_msg cmd.mark_as_executed))) ∧
    (cmd.failure_behavior = BehaviorOnFailure.Exit → ctx.fail_fast = true →
      (runCmd env ctx cmd m1 m2).1 = .exited) := by
  rw [runCmd_miss_fst env ctx cmd m1 m2 hmiss,
    internal_ran_failure_fst env ctx cmd m1 m2 out err hdry henv]
  refine ⟨fun hig => by simp [hig], fun hd => by simp [hd],
    fun hex hff => by simp [hex, hff], fun hex hff => by simp [hex, hff]⟩

/-- Witness for C2: all four rows of the matrix at a concrete failing
command. -/
theorem runCmd_failure_policy_matrix_witness :
    (runCmd failEnv plainCtx wCmdIgnore .Capture .Capture).1 =
      .normal (.ok (CommandOutput.from_output false "" "boom" .Capture .Capture)) ∧
    (runCmd failEnv plainCtx wCmdDelay .Capture .Capture).1 =
      .normal (.error (cmd_failed_msg wCmdDelay.mark_as_executed)) ∧
    (runCmd failEnv plainCtx wCmd .Capture .Capture).1 =
      .normal (.error (cmd_failed_msg wCmd.mark_as_executed)) ∧
    (runCmd failEnv wCtx wCmd .Capture .Capture).1 = .exited :=
  ⟨(runCmd_failure_policy_matrix failEnv plainCtx wCmdIgnore .Capture .Capture
      "" "boom" rfl rfl rfl).1 rfl,
   (runCmd_failure_policy_matrix failEnv plainCtx wCmdDelay .Capture .Capture
      "" "boom" rfl rfl rfl).2.1 rfl,
   (runCmd_failure_policy_matrix failEnv plainCtx wCmd .Capture .Capture
      "" "boom" rfl rfl rfl).2.2.1 rfl rfl,
   (runCmd_failure_policy_matrix failEnv wCtx wCmd .Capture .Capture
      "" "boom" rfl rfl rfl).2.2.2 rfl rfl⟩

theorem internal_spawn_error_eq (env : Env) (ctx : ExecutionContext)
    (cmd : BootstrapCommand) (m1 m2 : OutputMode) (e : String)
    (hdry : (ctx.dry_run && !cmd.run_always) = false)
    (henv : env cmd.key = .spawnError e) :
    execute_bootstrap_command_internal env ctx cmd m1 m2 =
      ((if (ctx.handle_failure cmd (CommandOutput.did_not_start m1 m2)
              (spawn_error_msg cmd e)).2 = true
        then .exited else .normal (.error (spawn_error_msg cmd e))), cmd,
        ctx.verbose_print ("running: " ++ cmd.program) ++ [.execInvoked cmd.key] ++
          ctx.verbose_print (spawn_error_msg cmd e) ++
          (ctx.handle_failure cmd (CommandOutput.did_not_start m1 m2)
            (spawn_error_msg cmd e)).1) := by
  unfold execute_bootstrap_command_internal
  rw [if_neg (by simp [hdry]), henv]

theorem runCmd_miss_eff (env : Env) (ctx : ExecutionContext) (cmd : BootstrapCommand)
    (m1 m2 : OutputMode)
    (h : alistFind cmd.key ctx.command_output_cache = none) :
    (runCmd env ctx cmd m1 m2).2.2 =
      (execute_bootstrap_command_internal env ctx cmd m1 m2).2.2 := by
  rw [runCmd_miss_eq env ctx cmd m1 m2 h]
  rcases hint : execute_bootstrap_command_internal env ctx cmd m1 m2 with ⟨res, c, e⟩
  cases res <;> rfl

/-- Claim C6 (amended): when the external program fails to launch, `runCmd` invokes
failure handling with a descriptive message (the error line appears among the
effects) and never hands the caller a success: under every failure policy,
including Ignore, the call either returns an error or — exactly when the
policy is Exit and fail-fast is on — terminates the process inside failure
handling. -/
theorem runCmd_spawn_failure (env : Env) (ctx : ExecutionContext)
    (cmd : BootstrapCommand) (m1 m2 : OutputMode) (e : String)
    (hmiss : alistFind cmd.key ctx.command_output_cache = none)
    (hdry : (ctx.dry_run && !cmd.run_always) = false)
    (henv : env cmd.key = .spawnError e) :
    (∀ o, (runCmd env ctx cmd m1 m2).1 ≠ .normal (.ok o)) ∧
    (¬(cmd.failure_behavior = BehaviorOnFailure.Exit ∧ ctx.fail_fast = true) →
      (runCmd env ctx cmd m1 m2).1 = .normal (.error (spawn_error_msg cmd e))) ∧
    (cmd.failure_behavior = BehaviorOnFailure.Exit ∧ ctx.fail_fast = true →
      (runCmd env ctx cmd m1 m2).1 = .exited) ∧
    Effect.eprintln (spawn_error_msg cmd e) ∈ (runCmd env ctx cmd m1 m2).2.2 := by
  have hint := internal_spawn_error_eq env ctx cmd m1 m2 e hdry henv
  rw [runCmd_miss_fst env ctx cmd m1 m2 hmiss, runCmd_miss_eff env ctx cmd m1 m2 hmiss,
    hint]
  refine ⟨?_, ?_, ?_, ?_⟩
  · intro o
    rw [handle_failure_snd_eq]
    cases hb : cmd.failure_behavior <;> cases hff : ctx.fail_fast <;> simp [hb, hff]
  · intro hnot
    rw [handle_failure_snd_eq]
    by_cases hex : cmd.failure_behavior = BehaviorOnFailure.Exit
    · cases hff : ctx.fail_fast with
      | false => simp [hex, hff]
      | true => exact absurd ⟨hex, hff⟩ hnot
    · simp [hex]
  · intro hand
    simp [hand.1, hand.2, handle_failure_snd_eq]
  · simp only [List.mem_append]
    exact Or.inr (eprintln_mem_handle_failure ctx cmd (CommandOutput.did_not_start m1 m2)
      (spawn_error_msg cmd e) (did_not_start_stderr_if_present m1 m2))

/-- Witness for C6: a concrete spawn failure under the Ignore policy still
returns an error and emits the failure-handling diagnostic. -/
theorem runCmd_spawn_failure_witness :
    (runCmd spawnFailEnv plainCtx wCmdIgnore .Capture .Capture).1 =
      .normal (.error (spawn_error_msg wCmdIgnore "No such file or directory")) ∧
    Effect.eprintln (spawn_error_msg wCmdIgnore "No such file or directory") ∈
      (runCmd spawnFailEnv plainCtx wCmdIgnore .Capture .Capture).2.2 :=
  ⟨(runCmd_spawn_failure spawnFailEnv plainCtx wCmdIgnore .Capture .Capture
      "No such file or directory" rfl rfl rfl).2.1 (by decide),
   (runCmd_spawn_failure spawnFailEnv plainCtx wCmdIgnore .Capture .Capture
      "No such file or directory" rfl rfl rfl).2.2.2⟩

theorem internal_ran_ok_eq (env : Env) (ctx : ExecutionContext)
    (cmd : BootstrapCommand) (m1 m2 : OutputMode) (exitSuccess : Bool)
    (out err : String)
    (hdry : (ctx.dry_run && !cmd.run_always) = false)
    (henv : env cmd.key = .ran exitSuccess out err)
    (hok : exitSuccess = true ∨ cmd.failure_behavior = BehaviorOnFailure.Ignore) :
    execute_bootstrap_command_internal env ctx cmd m1 m2 =
      (.normal (.ok (CommandOutput.from_output exitSuccess out err m1 m2)),
        cmd.mark_as_executed,
        ctx.verbose_print ("running: " ++ cmd.program) ++ [.execInvoked cmd.key] ++
          ctx.verbose_print ("finished running " ++ cmd.program)) := by
  unfold execute_bootstrap_command_internal
  rw [if_neg (by simp [hdry]), henv]
  dsimp only
  rw [if_neg ?hc]
  case hc =>
    rcases hok with h | h <;> simp [h]

theorem internal_ran_ok_fst (env : Env) (ctx : ExecutionContext)
    (cmd : BootstrapCommand) (m1 m2 : OutputMode) (exitSuccess : Bool)
    (out err : String)
    (hdry : (ctx.dry_run && !cmd.run_always) = false)
    (henv : env cmd.key = .ran exitSuccess out err)
    (hok : exitSuccess = true ∨ cmd.failure_behavior = BehaviorOnFailure.Ignore) :
    (execute_bootstrap_command_internal env ctx cmd m1 m2).1 =
      .normal (.ok (CommandOutput.from_output exitSuccess out err m1 m2)) := by
  rw [internal_ran_ok_eq env ctx cmd m1 m2 exitSuccess out err hdry henv hok]

/-- Claim C7: for a key already present in the command-outcome cache, the
result of `runCmd` does not depend on the capture-mode arguments: calls with
different modes return the same stored outcome, and the stored outcome
reflects the modes of the first (miss) call for that key. -/
theorem runCmd_cache_hit_bypasses_capture_modes (env : Env)
    (ctx ctx1 : ExecutionContext) (cmd1 cmd2 : BootstrapCommand)
    (ma mb mc md : OutputMode) (r : Except String CommandOutput)
    (eff1 : List Effect) (exitSuccess : Bool) (out err : String)
    (hkey : cmd2.key = cmd1.key)
    (h1 : runCmd env ctx cmd1 ma mb = (.normal r, ctx1, eff1)) :
    runCmd env ctx1 cmd2 mc md = runCmd env ctx1 cmd2 ma mb ∧
    (runCmd env ctx1 cmd2 mc md).1 = .normal r ∧
    (alistFind cmd1.key ctx.command_output_cache = none →
      (ctx.dry_run && !cmd1.run_always) = false →
      env cmd1.key = .ran exitSuccess out err →
      (exitSuccess = true ∨ cmd1.failure_behavior = BehaviorOnFailure.Ignore) →
      r = .ok (CommandOutput.from_output exitSuccess out err ma mb)) := by
  have hfind := alistFind_after_runCmd env ctx cmd1 ma mb r ctx1 eff1 h1
  have hfind2 : alistFind cmd2.key ctx1.command_output_cache = some r := by
    rw [hkey]; exact hfind
  refine ⟨?_, ?_, ?_⟩
  · rw [runCmd_hit_eq env ctx1 cmd2 mc md r hfind2,
      runCmd_hit_eq env ctx1 cmd2 ma mb r hfind2]
  · rw [runCmd_hit_eq env ctx1 cmd2 mc md r hfind2]
  · intro hmiss hdry henv hok
    have h1fst : (runCmd env ctx cmd1 ma mb).1 = .normal r := by rw [h1]
    rw [runCmd_miss_fst env ctx cmd1 ma mb hmiss,
      internal_ran_ok_fst env ctx cmd1 ma mb exitSuccess out err hdry henv hok] at h1fst
    exact (ExecOutcome.normal.inj h1fst).symm

/-- Witness for C7: the outcome cached under Capture/Capture (with captured
text) is returned unchanged by a later Print/Print request. -/
theorem runCmd_cache_hit_bypasses_capture_modes_witness :
    runCmd wEnv wCtx1 wCmd .Print .Print = runCmd wEnv wCtx1 wCmd .Capture .Capture ∧
    (runCmd wEnv wCtx1 wCmd .Print .Print).1 = .normal wR ∧
    wR = .ok (CommandOutput.from_output true "hello\n" "" .Capture .Capture) := by
  have h := runCmd_cache_hit_bypasses_capture_modes wEnv wCtx wCtx1 wCmd wCmd
    .Capture .Capture .Print .Print wR wEff true "hello\n" "" rfl (by rfl)
  exact ⟨h.1, h.2.1, h.2.2 rfl rfl rfl (Or.inl rfl)⟩

/-- Claim C10: on a command-outcome cache hit, `runCmd` returns the stored
result without consulting the descriptor's failure policy or `run_always`
flag, or the context's dry-run and fail-fast flags: any descriptor with the
cached key, in any context sharing that cache, receives the stored value with
no process invocation and no cache change. -/
theorem runCmd_cache_hit_ignores_policy_flags (env : Env)
    (ctx ctx2 : ExecutionContext) (cmd cmd2 : BootstrapCommand)
    (m1 m2 : OutputMode) (v : Except String CommandOutput)
    (hsame : ctx2.command_output_cache = ctx.command_output_cache)
    (hkey : cmd2.key = cmd.key)
    (hhit : alistFind cmd.key ctx.command_output_cache = some v) :
    (runCmd env ctx cmd m1 m2).1 = .normal v ∧
    (runCmd env ctx2 cmd2 m1 m2).1 = .normal v ∧
    (runCmd env ctx2 cmd2 m1 m2).2.1 = ctx2 ∧
    countExec (runCmd env ctx2 cmd2 m1 m2).2.2 = 0 := by
  have hhit2 : alistFind cmd2.key ctx2.command_output_cache = some v := by
    rw [hkey, hsame]; exact hhit
  rw [runCmd_hit_eq env ctx cmd m1 m2 v hhit,
    runCmd_hit_eq env ctx2 cmd2 m1 m2 v hhit2]
  exact ⟨rfl, rfl, rfl, countExec_verbose_print _ _⟩

/-- Witness for C10: an outcome cached from a real execution is replayed for
a descriptor with the Exit policy in a dry-run, fail-fast context, under an
environment in which the command would now fail. -/
theorem runCmd_cache_hit_ignores_policy_flags_witness :
    (runCmd failEnv wCtxHit wCmd .Capture .Capture).1 = .normal wR ∧
    countExec (runCmd failEnv wCtxHit wCmd .Capture .Capture).2.2 = 0 := by
  have h := runCmd_cache_hit_ignores_policy_flags failEnv wCtxHit wCtxHit wCmd wCmd
    .Capture .Capture wR rfl rfl (by rfl)
  exact ⟨h.1, h.2.2.2⟩

theorem diff_index_cmd_key (cwd : Option String) (base : String)
    (paths : List String) :
    (diff_index_cmd cwd base paths).key = diff_index_key cwd base paths := by
  cases cwd <;> rfl

theorem diff_index_cmd_failure_behavior (cwd : Option String) (base : String)
    (paths : List String) :
    (diff_index_cmd cwd base paths).failure_behavior = BehaviorOnFailure.Ignore := by
  cases cwd <;> rfl

theorem diff_index_cmd_run_always (cwd : Option String) (base : String)
    (paths : List String) :
    (diff_index_cmd cwd base paths).run_always = true := by
  cases cwd <;> rfl

/-- Claim C8: `git_command_status_for_diff_index` returns false when the
underlying `git diff-index --quiet <base> -- <paths>` command exits
successfully (no differences) and true when it exits non-successfully (there
are differences), for every base and path list. -/
theorem git_diff_index_status_semantics (env : Env) (ctx : ExecutionContext)
    (cwd : Option String) (base : String) (paths : List String)
    (exitSuccess : Bool) (out err : String)
    (hmiss : alistFind (diff_index_key cwd base paths) ctx.command_output_cache = none)
    (henv : env (diff_index_key cwd base paths) = .ran exitSuccess out err) :
    (git_command_status_for_diff_index env ctx cwd base paths).1 =
      .normal (.ok (!exitSuccess)) := by
  have hk := diff_index_cmd_key cwd base paths
  have hmiss1 : alistFind (diff_index_cmd cwd base paths).key
      ctx.command_output_cache = none := by rw [hk]; exact hmiss
  have henv1 : env (diff_index_cmd cwd base paths).key = .ran exitSuccess out err := by
    rw [hk]; exact henv
  have hdry : (ctx.dry_run && !(diff_index_cmd cwd base paths).run_always) = false := by
    rw [diff_index_cmd_run_always]
    simp
  have hok : exitSuccess = true ∨
      (diff_index_cmd cwd base paths).failure_behavior = BehaviorOnFailure.Ignore :=
    Or.inr (diff_index_cmd_failure_behavior cwd base paths)
  unfold git_command_status_for_diff_index
  rw [runCmd_miss_eq env ctx (diff_index_cmd cwd base paths) .Print .Print hmiss1,
    internal_ran_ok_eq env ctx (diff_index_cmd cwd base paths) .Print .Print
      exitSuccess out err hdry henv1 hok]
  simp

/-- Witness for C8: a command that exits non-successfully yields `true`
(there are differences). -/
theorem git_diff_index_status_semantics_witness :
    (git_command_status_for_diff_index failEnv plainCtx none "HEAD" ["src"]).1 =
      .normal (.ok true) := by
  have h := git_diff_index_status_semantics failEnv plainCtx none "HEAD" ["src"]
    false "" "boom" rfl rfl
  simpa using h

theorem check_hit_eq (oracle : VcsOracle) (ctx : ExecutionContext)
    (src_dir : String) (paths : List String) (v : PathFreshness)
    (h : alistFind (check_key src_dir paths) ctx.path_modifications_cache = some v) :
    check_path_modifications oracle ctx src_dir paths =
      (.normal v, ctx, ctx.verbose_print "(cached) check_path_modifications") := by
  unfold check_path_modifications
  dsimp only
  rw [h]

theorem check_miss_eq (oracle : VcsOracle) (ctx : ExecutionContext)
    (src_dir : String) (paths : List String)
    (h : alistFind (check_key src_dir paths) ctx.path_modifications_cache = none) :
    check_path_modifications oracle ctx src_dir paths =
      (match oracle src_dir paths with
        | .error _ =>
          (.exited, ctx, ctx.verbose_print "Running check_path_modification" ++
            [.vcsCheck src_dir (String.intercalate "," paths)])
        | .ok r =>
          (.normal r,
            { ctx with path_modifications_cache :=
                (check_key src_dir paths, r) :: ctx.path_modifications_cache },
            ctx.verbose_print "Running check_path_modification" ++
              [.vcsCheck src_dir (String.intercalate "," paths)])) := by
  unfold check_path_modifications
  dsimp only
  rw [h]

theorem alistFind_after_check (oracle : VcsOracle) (ctx : ExecutionContext)
    (src_dir : String) (paths : List String) (r : PathFreshness)
    (ctx1 : ExecutionContext) (eff : List Effect)
    (h : check_path_modifications oracle ctx src_dir paths = (.normal r, ctx1, eff)) :
    alistFind (check_key src_dir paths) ctx1.path_modifications_cache = some r := by
  cases hfind : alistFind (check_key src_dir paths) ctx.path_modifications_cache with
  | some v =>
    rw [check_hit_eq oracle ctx src_dir paths v hfind] at h
    simp only [Prod.mk.injEq, ExecOutcome.normal.injEq] at h
    obtain ⟨h1, h2, -⟩ := h
    subst h1
    subst h2
    exact hfind
  | none =>
    rw [check_miss_eq oracle ctx src_dir paths hfind] at h
    cases ho : oracle src_dir paths with
    | error e => rw [ho] at h; simp at h
    | ok v =>
      rw [ho] at h
      simp only [Prod.mk.injEq, ExecOutcome.normal.injEq] at h
      obtain ⟨h1, h2, -⟩ := h
      subst h1
      subst h2
      simp [alistFind]

/-- Claim C5: the freshness cache key deterministically encodes its inputs —
two keys with the same source root coincide exactly when the comma-joined
pattern lists are equal, and keys with different source roots never collide;
consequently, after one call populates an entry, a call with the same root
and an equally-joined pattern list hits that entry and returns the same
verdict without consulting the VCS oracle. -/
theorem check_path_modifications_key_semantics (s1 s2 : String)
    (p1 p2 : List String) (oracle : VcsOracle) (ctx ctx1 : ExecutionContext)
    (r : PathFreshness) (eff : List Effect) :
    (check_key s1 p1 = check_key s2 p2 ↔
      s1 = s2 ∧ String.intercalate "," p1 = String.intercalate "," p2) ∧
    (check_path_modifications oracle ctx s1 p1 = (.normal r, ctx1, eff) →
      String.intercalate "," p1 = String.intercalate "," p2 →
      check_path_modifications oracle ctx1 s1 p2 =
        (.normal r, ctx1, ctx1.verbose_print "(cached) check_path_modifications")) := by
  constructor
  · constructor
    · intro h
      have h1 := congrArg Prod.fst h
      have h2 := congrArg (fun q => q.2.value) h
      exact ⟨h1, h2⟩
    · intro ⟨h1, h2⟩
      unfold check_key intern_str
      rw [h1, h2]
  · intro h hjoin
    have hkeys : check_key s1 p2 = check_key s1 p1 := by
      unfold check_key intern_str
      rw [hjoin]
    have hfind := alistFind_after_check oracle ctx s1 p1 r ctx1 eff h
    rw [← hkeys] at hfind
    exact check_hit_eq oracle ctx1 s1 p2 r hfind

/-- Witness for C5: pattern lists ["a", "b"] and ["a,b"] have the same joined
representation, so the second call hits the entry the first call stored. -/
theorem check_path_modifications_key_semantics_witness :
    check_key "root" ["a", "b"] = check_key "root" ["a,b"] ∧
    check_path_modifications wOracle wCtxFresh "root" ["a,b"] =
      (.normal .unchanged, wCtxFresh,
        wCtxFresh.verbose_print "(cached) check_path_modifications") := by
  have h := check_path_modifications_key_semantics "root" "root" ["a", "b"] ["a,b"]
    wOracle plainCtx wCtxFresh .unchanged [.vcsCheck "root" "a,b"]
  exact ⟨(h.1).2 ⟨rfl, rfl⟩, h.2 (by rfl) rfl⟩

/-- Counterexample for C4 as stated: with an unreadable file, `read_file`
terminates the process (the `.expect` panic fires before the cache insert),
and the failure is NOT recorded in the file-contents cache — the cache is
still empty afterwards, so the first read's failure is not cached. -/
theorem read_file_failure_uncached_counterexample :
    (read_file wFs plainCtx "bad").1 = ExecOutcome.exited ∧
    (read_file wFs plainCtx "bad").2.1.file_contents_cache = [] := by
  exact ⟨rfl, rfl⟩

/-- Claim C4 (amended): `read_file` permanently caches the first successful
read for the life of the context, and treats an unreadable or non-UTF-8 file
as an unrecoverable (fatal) condition — the process terminates with nothing
cached for that path — rather than returning a recoverable error; repeated
calls for a cached path never re-invoke the filesystem read. -/
theorem read_file_cache_and_fatal_failure (fs : String → Except String String)
    (ctx : ExecutionContext) (path : String) :
    (∀ v, alistFind path ctx.file_contents_cache = none → fs path = .ok v →
      read_file fs ctx path =
        (.normal v,
          { ctx with file_contents_cache := (path, .ok v) :: ctx.file_contents_cache },
          ctx.verbose_print ("Reading file: " ++ path) ++ [.fsRead path])) ∧
    (∀ e, alistFind path ctx.file_contents_cache = none → fs path = .error e →
      (read_file fs ctx path).1 = ExecOutcome.exited ∧
      (read_file fs ctx path).2.1 = ctx) ∧
    (∀ v, alistFind path ctx.file_contents_cache = some (.ok v) →
      read_file fs ctx path =
        (.normal v, ctx, ctx.verbose_print ("(cached) Reading file: " ++ path)) ∧
      Effect.fsRead path ∉ ctx.verbose_print ("(cached) Reading file: " ++ path)) := by
  refine ⟨?_, ?_, ?_⟩
  · intro v hfind hf
    unfold read_file
    rw [hfind]
    dsimp only
    rw [hf]
  · intro e hfind hf
    unfold read_file
    rw [hfind]
    dsimp only
    rw [hf]
    exact ⟨rfl, rfl⟩
  · intro v hfind
    unfold read_file
    rw [hfind]
    refine ⟨rfl, ?_⟩
    unfold ExecutionContext.verbose_print
    split <;> simp

/-- Witness for C4 (amended): a successful read is cached and replayed
without touching the filesystem, while an unreadable path is fatal. -/
theorem read_file_cache_and_fatal_failure_witness :
    read_file wFs plainCtx "good" =
      (.normal "data", wCtxRead,
        plainCtx.verbose_print ("Reading file: " ++ "good") ++ [.fsRead "good"]) ∧
    (read_file wFs plainCtx "bad").1 = ExecOutcome.exited ∧
    read_file wFs wCtxRead "good" =
      (.normal "data", wCtxRead,
        wCtxRead.verbose_print ("(cached) Reading file: " ++ "good")) := by
  refine ⟨?_, ?_, ?_⟩
  · exact (read_file_cache_and_fatal_failure wFs plainCtx "good").1 "data" rfl rfl
  · exact ((read_file_cache_and_fatal_failure wFs plainCtx "bad").2.1
      "stream did not contain valid UTF-8" rfl (by rfl)).1
  · exact ((read_file_cache_and_fatal_failure wFs wCtxRead "good").2.2 "data" rfl).1

/-- Counterexample for C6 as stated: a spawn failure under the Exit policy in
a fail-fast context terminates the whole process inside failure handling —
no error value is returned to the caller. -/
theorem runCmd_spawn_failure_exit_counterexample :
    (runCmd spawnFailEnv wCtx wCmd .Capture .Capture).1 = ExecOutcome.exited := by
  rfl
